import Mathlib

/-!
Verification of the sync-app synchronization engine (Rust crate `sync`)
against its natural-language specification.

The development shallowly embeds the relevant operations of
`src/sync/src/{filter,comparator,diff,conflict,metrics,sync_engine,scanner}.rs`:

* Paths (`std::path::PathBuf`) are modelled as lists of component strings.
* Machine integers (`u64`, `usize`) are modelled as `Nat`; `SystemTime`
  values as `Int` points on a timeline (only their ordering is used).
* Fallible Rust functions returning `Result<T, SyncError>` become
  `Except SyncError T`.
* The glob engine of the third-party `globset` crate is kept abstract: the
  embedding is parameterised by a matcher `GlobMatcher`, a function from the
  case-sensitivity flag and a pattern to a path predicate.  A `GlobSet`
  built from a list of patterns matches iff some pattern matches, which is
  the documented `GlobSet::is_match` behaviour used by `filter.rs`.
* Filesystem state is modelled explicitly (`Fs`) for the executor.
-/

/-- Paths are lists of components (model of `std::path::PathBuf`). -/
abbrev PathM := List String

/-- Render a path for error messages (model of `Path::display`). -/
def renderPath (p : PathM) : String := String.intercalate "/" p

/-- Model of `SyncError` (src/sync/src/error.rs); only the variants reachable
from the embedded code are included, each carrying its message payload. -/
inductive SyncError where
  | Io (message : String)
  | Path (path : PathM) (message : String)
  | Comparison (message : String)
  | FilterPattern (message : String)
  | ConflictResolution (message : String)
  | Hash (path : PathM) (message : String)
  | FileCopy (message : String)
  | FileDeletion (path : PathM) (message : String)
  deriving Repr, DecidableEq

/-- `SyncError::comparison_error` (error.rs lines 98-112). -/
def SyncError.comparisonError (source dest : PathM) (message : String) : SyncError :=
  .Comparison ("Comparison error between '" ++ renderPath source ++ "' and '"
    ++ renderPath dest ++ "': " ++ message)

/-- `SyncError::copy_error` (error.rs lines 139-153). -/
def SyncError.copyError (source dest : PathM) (message : String) : SyncError :=
  .FileCopy ("File copy error from '" ++ renderPath source ++ "' to '"
    ++ renderPath dest ++ "': " ++ message)

/-- `SyncError::path_error` (error.rs lines 82-87). -/
def SyncError.pathError (path : PathM) (message : String) : SyncError :=
  .Path path message

/-- `SyncError::deletion_error` (error.rs lines 156-161). -/
def SyncError.deletionError (path : PathM) (message : String) : SyncError :=
  .FileDeletion path message

/-- Display of `SyncError` per the `#[error(...)]` attributes in error.rs
(`e.to_string()`); only the embedded variants. -/
def SyncError.toDisplay : SyncError → String
  | .Io m => "IO error: " ++ m
  | .Path p m => "Path error at '" ++ renderPath p ++ "': " ++ m
  | .Comparison m => "Comparison error: " ++ m
  | .FilterPattern m => "Filter pattern error: " ++ m
  | .ConflictResolution m => "Conflict resolution error: " ++ m
  | .Hash p m => "Hash computation error for '" ++ renderPath p ++ "': " ++ m
  | .FileCopy m => "File copy error: " ++ m
  | .FileDeletion p m => "File deletion error at '" ++ renderPath p ++ "': " ++ m

/-! ## Filter (src/sync/src/filter.rs) -/

/-- `FilterOptions` (filter.rs lines 10-24). -/
structure FilterOptions where
  include_patterns : List String
  exclude_patterns : List String
  case_sensitive : Bool
  include_hidden : Bool
  max_file_size : Option Nat
  min_file_size : Option Nat
  deriving Repr, DecidableEq

/-- `FilterOptions::default()` (filter.rs lines 26-37). -/
def FilterOptions.default : FilterOptions :=
  { include_patterns := [], exclude_patterns := [], case_sensitive := false,
    include_hidden := true, max_file_size := none, min_file_size := none }

/-- Abstract glob matcher: given the case-sensitivity the glob was compiled
with, a pattern and a path, decide whether the glob matches.  This stands for
a single compiled `globset::Glob`. -/
abbrev GlobMatcher := Bool → String → PathM → Bool

/-- `GlobSet::is_match` over the set built from `patterns`
(filter.rs `build_globset`, lines 121-141): a set matches iff some member
glob matches. -/
def globsetIsMatch (M : GlobMatcher) (caseSensitive : Bool)
    (patterns : List String) (path : PathM) : Bool :=
  patterns.any (fun pat => M caseSensitive pat path)

/-- `FileFilter::is_hidden` (filter.rs lines 144-151): some path component
starts with a dot and is neither `.` nor `..`.  (In the model every component
is valid UTF-8, so the `to_str` fallback is not exercised.) -/
def isHiddenPath (path : PathM) : Bool :=
  path.any (fun s => s.startsWith "." && s ≠ "." && s ≠ "..")

/-- A successfully constructed `FileFilter` is its options; the compiled
include/exclude sets are derived from the pattern lists
(filter.rs lines 40-72). -/
abbrev FileFilter := FilterOptions

/-- `FileFilter::should_include` (filter.rs lines 75-96).  The include set is
`None` exactly when `include_patterns` is empty, likewise for excludes. -/
def shouldInclude (M : GlobMatcher) (f : FileFilter) (path : PathM) : Bool :=
  if !f.include_hidden && isHiddenPath path then
    false
  else if !f.include_patterns.isEmpty
      && !globsetIsMatch M f.case_sensitive f.include_patterns path then
    false
  else if !f.exclude_patterns.isEmpty
      && globsetIsMatch M f.case_sensitive f.exclude_patterns path then
    false
  else
    true

/-- `FileFilter::should_include_size` (filter.rs lines 99-113): reject when
above the configured maximum or below the configured minimum. -/
def shouldIncludeSize (f : FileFilter) (file_size : Nat) : Bool :=
  if (match f.max_file_size with
      | some maxSize => decide (file_size > maxSize)
      | none => false : Bool) then
    false
  else if (match f.min_file_size with
      | some minSize => decide (file_size < minSize)
      | none => false : Bool) then
    false
  else
    true

/-- `FileFilter::should_include_file` (filter.rs lines 116-118). -/
def shouldIncludeFile (M : GlobMatcher) (f : FileFilter) (path : PathM)
    (file_size : Nat) : Bool :=
  shouldInclude M f path && shouldIncludeSize f file_size

/-- `FileFilter::and` (filter.rs lines 242-269): concatenate include and
exclude pattern lists, OR the case-sensitivity flags, AND the include-hidden
flags, take the min of the max sizes and the max of the min sizes. -/
def FileFilter.and (f other : FileFilter) : FileFilter :=
  { include_patterns := f.include_patterns ++ other.include_patterns,
    exclude_patterns := f.exclude_patterns ++ other.exclude_patterns,
    case_sensitive := f.case_sensitive || other.case_sensitive,
    include_hidden := f.include_hidden && other.include_hidden,
    max_file_size :=
      match f.max_file_size, other.max_file_size with
      | some a, some b => some (min a b)
      | some a, none => some a
      | none, some b => some b
      | none, none => none,
    min_file_size :=
      match f.min_file_size, other.min_file_size with
      | some a, some b => some (max a b)
      | some a, none => some a
      | none, some b => some b
      | none, none => none }

/-- ASCII lower-casing of one character (model of the case-insensitive glob
compilation mode of `globset` for the ASCII patterns the repository uses). -/
def foldCaseChar (c : Char) : Char :=
  if c.toNat ≥ 65 && c.toNat ≤ 90 then Char.ofNat (c.toNat + 32) else c

/-- Case-fold a string to a character list. -/
def foldCase (s : String) : List Char := s.data.map foldCaseChar

/-- Modelled from the spec: the `globset` crate is external to the
repository, so one concrete glob semantics is provided for the pattern shape
`**/*<suffix>` that the repository's filters and tests use ("a path matches
iff its final component ends with `<suffix>`", case-insensitively unless the
glob was compiled case-sensitive; `**/` matches zero or more leading
components, as pinned by the tests in filter.rs lines 277-303). -/
def extGlobMatch : GlobMatcher := fun caseSensitive pat path =>
  if ("**/*".data).isPrefixOf pat.data then
    let suffix := pat.data.drop 4
    match path.getLast? with
    | some name =>
        if caseSensitive then suffix.isSuffixOf name.data
        else (suffix.map foldCaseChar).isSuffixOf (foldCase name)
    | none => false
  else
    false

/-! ## Comparator (src/sync/src/comparator.rs) -/

/-- `ComparisonMethod` (comparator.rs lines 14-30). -/
inductive ComparisonMethod where
  | Size
  | Timestamp
  | SizeAndTimestamp
  | Sha256
  | Blake3
  | ByteByByte
  | Comprehensive
  deriving Repr, DecidableEq

/-- `ComparisonResult` (comparator.rs lines 39-59). -/
inductive ComparisonResult where
  | Identical
  | Different
  | SourceNewer
  | DestinationNewer
  | DifferentSize
  | DifferentContent
  | SourceOnly
  | DestinationOnly
  | Error (message : String)
  deriving Repr, DecidableEq

/-- The filesystem facts `FileComparator::compare` reads about one existing
path: `fs::metadata` (kind, length, mtime) and the byte content used by the
hash and byte-by-byte methods.  `modified` is `metadata.modified()`s value on
an integer timeline (with `unwrap_or(UNIX_EPOCH)` already applied). -/
structure FileMeta where
  is_dir : Bool
  size : Nat
  modified : Int
  content : List Nat
  deriving Repr, DecidableEq

/-- `compare_by_timestamp` (comparator.rs lines 179-192): `Greater →
SourceNewer`, `Less → DestinationNewer`, `Equal → Identical`. -/
def compareByTimestamp (sourceModified destModified : Int) : ComparisonResult :=
  if sourceModified > destModified then .SourceNewer
  else if sourceModified < destModified then .DestinationNewer
  else .Identical

/-- The method dispatch of `FileComparator::compare` for two existing
regular files (comparator.rs lines 125-137 with the helpers at lines
166-207, 210-224, 227-266 and 269-305).  `h256` and `hb3` are the SHA-256
and BLAKE3 digest functions, kept abstract; `compare_byte_by_byte` returns
`Identical` exactly when the two byte streams are equal (paired equal-size
buffered reads, any length or content mismatch yields `DifferentContent`). -/
def compareExisting (h256 hb3 : List Nat → String) (s d : FileMeta) :
    ComparisonMethod → ComparisonResult
  | .Size => if s.size = d.size then .Identical else .DifferentSize
  | .Timestamp => compareByTimestamp s.modified d.modified
  | .SizeAndTimestamp =>
      if s.size ≠ d.size then .DifferentSize
      else compareByTimestamp s.modified d.modified
  | .Sha256 =>
      if h256 s.content = h256 d.content then .Identical else .DifferentContent
  | .Blake3 =>
      if hb3 s.content = hb3 d.content then .Identical else .DifferentContent
  | .ByteByByte =>
      if s.content = d.content then .Identical else .DifferentContent
  | .Comprehensive =>
      if s.size ≠ d.size then .DifferentSize
      else if s.modified = d.modified then .Identical
      else if hb3 s.content = hb3 d.content then .Identical
      else if s.modified > d.modified then .SourceNewer
      else .DestinationNewer

/-- `FileComparator::compare` (comparator.rs lines 87-138).  `source` and
`dest` are the filesystem's view of the two paths (`none` = the path does
not exist).  Existence is checked first: one-sided absence short-circuits to
`SourceOnly`/`DestinationOnly`, double absence to the `Error` verdict, and
only then directories are rejected with a `Comparison` error. -/
def FileComparator.compare (h256 hb3 : List Nat → String)
    (sourcePath destPath : PathM) (source dest : Option FileMeta)
    (method : ComparisonMethod) : Except SyncError ComparisonResult :=
  match source, dest with
  | some _, none => .ok .SourceOnly
  | none, some _ => .ok .DestinationOnly
  | none, none => .ok (.Error "Neither file exists")
  | some s, some d =>
      if s.is_dir || d.is_dir then
        .error (SyncError.comparisonError sourcePath destPath "Cannot compare directories")
      else
        .ok (compareExisting h256 hb3 s d method)

/-! ## Scan output and diff data model (scanner.rs, diff.rs) -/

/-- `FileEntry` (scanner.rs lines 56-76). -/
structure FileEntry where
  path : PathM
  relative_path : PathM
  size : Nat
  modified : Int
  created : Option Int
  is_dir : Bool
  is_symlink : Bool
  hash : Option String
  permissions : Nat
  deriving Repr, DecidableEq

/-- `ConflictType` (diff.rs lines 50-62). -/
inductive ConflictType where
  | BothModified
  | FileDirectoryConflict
  | TypeMismatch
  | PermissionConflict
  | SizeMismatch
  deriving Repr, DecidableEq

/-- `FileInfo` (diff.rs lines 65-73). -/
structure FileInfo where
  size : Nat
  modified : Int
  is_dir : Bool
  is_symlink : Bool
  permissions : Nat
  hash : Option String
  deriving Repr, DecidableEq

/-- `impl From<&FileEntry> for FileInfo` (diff.rs lines 75-86). -/
def FileInfo.fromEntry (entry : FileEntry) : FileInfo :=
  { size := entry.size, modified := entry.modified, is_dir := entry.is_dir,
    is_symlink := entry.is_symlink, permissions := entry.permissions,
    hash := entry.hash }

/-- `SyncAction` (diff.rs lines 12-47). -/
inductive SyncAction where
  | Copy (source destination : PathM) (file_size : Nat)
  | Update (source destination : PathM) (file_size : Nat)
  | Delete (path : PathM)
  | CreateDirectory (path : PathM)
  | Conflict (source destination : PathM) (conflict_type : ConflictType)
      (source_info destination_info : FileInfo)
  | Skip (path : PathM) (reason : String)
  deriving Repr, DecidableEq

/-- `PlanSummary` (diff.rs lines 98-108). -/
structure PlanSummary where
  total_actions : Nat
  copies : Nat
  updates : Nat
  deletes : Nat
  directory_creates : Nat
  conflicts : Nat
  skips : Nat
  total_bytes_to_transfer : Nat
  deriving Repr, DecidableEq

/-- `PlanSummary::default()` (diff.rs lines 110-123). -/
def PlanSummary.default : PlanSummary :=
  { total_actions := 0, copies := 0, updates := 0, deletes := 0,
    directory_creates := 0, conflicts := 0, skips := 0,
    total_bytes_to_transfer := 0 }

/-- `SyncPlan` (diff.rs lines 88-95). -/
structure SyncPlan where
  actions : List SyncAction
  summary : PlanSummary
  deriving Repr, DecidableEq

/-! ## Diff engine (src/sync/src/diff.rs) -/

/-- The comparator the diff engine consults for a pair of entries present on
both sides; stands for `FileComparator::compare_entries` (comparator.rs
lines 141-163), whose verdict depends on filesystem state. -/
abbrev EntryComparator :=
  FileEntry → FileEntry → ComparisonMethod → Except SyncError ComparisonResult

/-- `DiffEngine::compare_and_decide` (diff.rs lines 211-331): type-mismatch
checks, the both-directories skip, then the verdict-to-action mapping. -/
def compareAndDecide (cmpE : EntryComparator) (source destination : FileEntry)
    (comparison_method : ComparisonMethod) : Except SyncError SyncAction :=
  if source.is_dir ≠ destination.is_dir then
    .ok (.Conflict source.relative_path destination.relative_path
      .FileDirectoryConflict (FileInfo.fromEntry source) (FileInfo.fromEntry destination))
  else if source.is_symlink ≠ destination.is_symlink then
    .ok (.Conflict source.relative_path destination.relative_path
      .TypeMismatch (FileInfo.fromEntry source) (FileInfo.fromEntry destination))
  else if source.is_dir && destination.is_dir then
    .ok (.Skip source.relative_path "Directory already exists")
  else
    match cmpE source destination comparison_method with
    | .error e => .error e
    | .ok comparison_result =>
      match comparison_result with
      | .Identical => .ok (.Skip source.relative_path "Files are identical")
      | .SourceNewer =>
          .ok (.Update source.relative_path destination.relative_path source.size)
      | .DestinationNewer =>
          .ok (.Conflict source.relative_path destination.relative_path
            .BothModified (FileInfo.fromEntry source) (FileInfo.fromEntry destination))
      | .DifferentSize =>
          if source.modified = destination.modified then
            .ok (.Conflict source.relative_path destination.relative_path
              .SizeMismatch (FileInfo.fromEntry source) (FileInfo.fromEntry destination))
          else if source.modified > destination.modified then
            .ok (.Update source.relative_path destination.relative_path source.size)
          else
            .ok (.Conflict source.relative_path destination.relative_path
              .BothModified (FileInfo.fromEntry source) (FileInfo.fromEntry destination))
      | .DifferentContent =>
          if source.modified > destination.modified then
            .ok (.Update source.relative_path destination.relative_path source.size)
          else
            .ok (.Conflict source.relative_path destination.relative_path
              .BothModified (FileInfo.fromEntry source) (FileInfo.fromEntry destination))
      | .Different =>
          .ok (.Update source.relative_path destination.relative_path source.size)
      | .SourceOnly =>
          .ok (.Copy source.relative_path destination.relative_path source.size)
      | .DestinationOnly => .ok (.Delete destination.relative_path)
      | .Error msg =>
          .error (SyncError.comparisonError source.path destination.path msg)

/-- Lookup in the `HashMap` built by collecting `(relative_path, entry)`
pairs (diff.rs lines 151-160): on duplicate keys the last insertion wins. -/
def mapLookup (entries : List FileEntry) (p : PathM) : Option FileEntry :=
  (entries.filter (fun e => e.relative_path = p)).getLast?

/-- `DiffEngine::generate_summary` (diff.rs lines 334-364). -/
def generateSummary (actions : List SyncAction) : PlanSummary :=
  let base := { PlanSummary.default with total_actions := actions.length }
  actions.foldl (fun summary action =>
    match action with
    | .Copy _ _ file_size =>
        { summary with
          copies := summary.copies + 1
          total_bytes_to_transfer := summary.total_bytes_to_transfer + file_size }
    | .Update _ _ file_size =>
        { summary with
          updates := summary.updates + 1
          total_bytes_to_transfer := summary.total_bytes_to_transfer + file_size }
    | .Delete _ => { summary with deletes := summary.deletes + 1 }
    | .CreateDirectory _ =>
        { summary with directory_creates := summary.directory_creates + 1 }
    | .Conflict _ _ _ _ _ => { summary with conflicts := summary.conflicts + 1 }
    | .Skip _ _ => { summary with skips := summary.skips + 1 }) base

/-- `DiffEngine::generate_plan` (diff.rs lines 145-208): walk the source
entries in order (consulting the destination index), then append one Delete
for every destination entry whose relative path was not processed.
`processed_paths` contains exactly the source relative paths by the time the
second loop runs. -/
def generatePlan (cmpE : EntryComparator) (source_entries dest_entries : List FileEntry)
    (comparison_method : ComparisonMethod) : Except SyncError SyncPlan := do
  let sourceActions ← source_entries.mapM (fun source_entry =>
    match mapLookup dest_entries source_entry.relative_path with
    | some dest_entry => compareAndDecide cmpE source_entry dest_entry comparison_method
    | none =>
        if source_entry.is_dir then
          .ok (.CreateDirectory source_entry.relative_path)
        else
          .ok (.Copy source_entry.relative_path source_entry.relative_path
            source_entry.size))
  let deleteActions := dest_entries.filterMap (fun dest_entry =>
    if source_entries.any (fun s => s.relative_path = dest_entry.relative_path) then
      none
    else
      some (.Delete dest_entry.relative_path))
  let actions := sourceActions ++ deleteActions
  pure { actions := actions, summary := generateSummary actions }

/-- `DiffEngine::get_action_file_size` (diff.rs lines 417-423). -/
def getActionFileSize : SyncAction → Nat
  | .Copy _ _ file_size => file_size
  | .Update _ _ file_size => file_size
  | _ => 0

/-- Whether an action is a `CreateDirectory` (the `matches!` tests in
diff.rs lines 400-401). -/
def isDirCreate : SyncAction → Bool
  | .CreateDirectory _ => true
  | _ => false

/-- The comparator closure passed to `sort_by` (diff.rs lines 396-413):
directories first, then larger files first. -/
def actionCmp (a b : SyncAction) : Ordering :=
  match isDirCreate a, isDirCreate b with
  | true, false => .lt
  | false, true => .gt
  | _, _ => compare (getActionFileSize b) (getActionFileSize a)

/-- Non-strict order induced by `actionCmp`. -/
def actionLe (a b : SyncAction) : Bool := actionCmp a b ≠ .gt

/-- Insert into a sorted list after every element that may stay before the
new one.  `stableSort` below models `Vec::sort_by`, which is a *stable*
sort: a stable sort's output is uniquely determined by the comparator, so
any stable sorting algorithm is a faithful model. -/
def stableInsert (le : α → α → Bool) (a : α) : List α → List α
  | [] => [a]
  | b :: bs => if le b a then b :: stableInsert le a bs else a :: b :: bs

/-- Tail of the stable sort: fold the remaining input into the sorted
accumulator. -/
def stableSortRun (le : α → α → Bool) : List α → List α → List α
  | acc, [] => acc
  | acc, x :: xs => stableSortRun le (stableInsert le x acc) xs

/-- Stable sort by a boolean total preorder (model of `Vec::sort_by`). -/
def stableSort (le : α → α → Bool) (l : List α) : List α :=
  stableSortRun le [] l

/-- `DiffEngine::sort_actions` (diff.rs lines 395-414): sort the action list
in place with `actionCmp`; the summary is untouched. -/
def sortActions (plan : SyncPlan) : SyncPlan :=
  { plan with actions := stableSort actionLe plan.actions }

/-! ## Conflict resolver (src/sync/src/conflict.rs) -/

/-- `ConflictStrategy` (conflict.rs lines 10-34). -/
inductive ConflictStrategy where
  | PreferSource
  | PreferDestination
  | PreferNewer
  | PreferOlder
  | PreferLarger
  | PreferSmaller
  | Skip
  | BackupAndUseSource
  | BackupAndKeepDestination
  | Manual
  | Fail
  deriving Repr, DecidableEq

/-- `ConflictResolution` (conflict.rs lines 43-63). -/
inductive ConflictResolution where
  | UseSource
  | UseDestination
  | Skip
  | BackupAndUseSource (backup_path : PathM)
  | BackupAndKeepDestination (backup_path : PathM)
  | ManualRequired (source_info destination_info : FileInfo)
      (suggested_action : String)
  | Failed (reason : String)
  deriving Repr, DecidableEq

/-- `ConflictResolver` (conflict.rs lines 66-73); the per-type `HashMap` is
an association list where later insertions shadow earlier ones. -/
structure ConflictResolver where
  default_strategy : ConflictStrategy
  type_strategies : List (ConflictType × ConflictStrategy)
  backup_directory : Option PathM
  deriving Repr, DecidableEq

/-- `HashMap::get` over the insertion list (last insertion wins). -/
def assocGet [DecidableEq κ] (l : List (κ × ν)) (k : κ) : Option ν :=
  ((l.filter (fun e => e.1 = k)).getLast?).map (fun e => e.2)

/-- Debug rendering of `ConflictType` (Rust `{:?}`). -/
def ConflictType.debugStr : ConflictType → String
  | .BothModified => "BothModified"
  | .FileDirectoryConflict => "FileDirectoryConflict"
  | .TypeMismatch => "TypeMismatch"
  | .PermissionConflict => "PermissionConflict"
  | .SizeMismatch => "SizeMismatch"

/-- `ConflictResolver::generate_backup_path` (conflict.rs lines 226-241).
`nowTs` is `chrono::Utc::now().format("%Y%m%d_%H%M%S")` rendered, passed in
because the embedding is pure.  `Path::file_name` is the last path
component, absent for an empty path or one ending in `..`. -/
def generateBackupPath (resolver : ConflictResolver) (nowTs : String)
    (original_path : PathM) (suffix : String) : Except SyncError PathM :=
  match resolver.backup_directory with
  | none => .error (.ConflictResolution "No backup directory configured")
  | some backup_dir =>
      match original_path.getLast? with
      | none =>
          .error (.ConflictResolution ("Invalid file name: " ++ renderPath original_path))
      | some file_name =>
          if file_name = ".." then
            .error (.ConflictResolution ("Invalid file name: " ++ renderPath original_path))
          else
            .ok (backup_dir ++ [file_name ++ "_" ++ suffix ++ "." ++ nowTs])

/-- `ConflictResolver::suggest_resolution` (conflict.rs lines 244-272). -/
def suggestResolution (source_info destination_info : FileInfo)
    (conflict_type : ConflictType) : String :=
  match conflict_type with
  | .BothModified =>
      if source_info.modified > destination_info.modified then
        "Source file is newer, consider using source"
      else if destination_info.modified > source_info.modified then
        "Destination file is newer, consider keeping destination"
      else
        "Files have same modification time, consider comparing content"
  | .FileDirectoryConflict =>
      "File/directory conflict: consider renaming one of them"
  | .TypeMismatch => "File type mismatch: check if both files are needed"
  | .PermissionConflict => "Permission conflict: verify which permissions are correct"
  | .SizeMismatch =>
      if source_info.size > destination_info.size then
        "Source file is larger, may contain more data"
      else
        "Destination file is larger, may contain more data"

/-- The `PreferNewer` arm of `apply_strategy` (conflict.rs lines 140-149),
shared with the tie fallbacks of `PreferLarger`/`PreferSmaller`. -/
def applyPreferNewer (source_info destination_info : FileInfo) : ConflictResolution :=
  if source_info.modified > destination_info.modified then .UseSource
  else if destination_info.modified > source_info.modified then .UseDestination
  else .UseSource

/-- `ConflictResolver::apply_strategy` (conflict.rs lines 126-223). -/
def applyStrategy (resolver : ConflictResolver) (nowTs : String)
    (strategy : ConflictStrategy) (source destination : PathM)
    (conflict_type : ConflictType) (source_info destination_info : FileInfo) :
    Except SyncError ConflictResolution :=
  match strategy with
  | .PreferSource => .ok .UseSource
  | .PreferDestination => .ok .UseDestination
  | .PreferNewer => .ok (applyPreferNewer source_info destination_info)
  | .PreferOlder =>
      .ok (if source_info.modified < destination_info.modified then .UseSource
        else if destination_info.modified < source_info.modified then .UseDestination
        else .UseSource)
  | .PreferLarger =>
      .ok (if source_info.size > destination_info.size then .UseSource
        else if destination_info.size > source_info.size then .UseDestination
        else applyPreferNewer source_info destination_info)
  | .PreferSmaller =>
      .ok (if source_info.size < destination_info.size then .UseSource
        else if destination_info.size < source_info.size then .UseDestination
        else applyPreferNewer source_info destination_info)
  | .Skip => .ok .Skip
  | .BackupAndUseSource => do
      let backup_path ← generateBackupPath resolver nowTs destination "dest"
      pure (.BackupAndUseSource backup_path)
  | .BackupAndKeepDestination => do
      let backup_path ← generateBackupPath resolver nowTs source "src"
      pure (.BackupAndKeepDestination backup_path)
  | .Manual =>
      .ok (.ManualRequired source_info destination_info
        (suggestResolution source_info destination_info conflict_type))
  | .Fail =>
      .ok (.Failed ("Conflict resolution strategy is set to fail on conflict type: "
        ++ conflict_type.debugStr))

/-- `ConflictResolver::resolve_conflict` (conflict.rs lines 102-123). -/
def resolveConflict (resolver : ConflictResolver) (nowTs : String)
    (source destination : PathM) (conflict_type : ConflictType)
    (source_info destination_info : FileInfo) : Except SyncError ConflictResolution :=
  let strategy := (assocGet resolver.type_strategies conflict_type).getD
    resolver.default_strategy
  applyStrategy resolver nowTs strategy source destination conflict_type
    source_info destination_info

/-- `ConflictResolver::resolution_to_action` (conflict.rs lines 275-321). -/
def resolutionToAction (resolution : ConflictResolution)
    (source destination : PathM) (source_info : FileInfo) :
    Except SyncError (Option SyncAction) :=
  match resolution with
  | .UseSource => .ok (some (.Update source destination source_info.size))
  | .UseDestination =>
      .ok (some (.Skip destination "Keeping destination file due to conflict resolution"))
  | .Skip => .ok (some (.Skip destination "Skipped due to conflict"))
  | .BackupAndUseSource _ =>
      .ok (some (.Update source destination source_info.size))
  | .BackupAndKeepDestination _ =>
      .ok (some (.Skip destination "Keeping destination file with backup of source"))
  | .ManualRequired _ _ _ => .ok none
  | .Failed reason => .error (.ConflictResolution reason)

/-! ## Options, filter construction and engine wiring
(scanner.rs, sync_engine.rs) -/

/-- `HashAlgorithm` (scanner.rs lines 47-53). -/
inductive HashAlgorithm where
  | Sha256
  | Blake3
  deriving Repr, DecidableEq

/-- `ScanOptions` (scanner.rs lines 14-30). -/
structure ScanOptions where
  follow_links : Bool
  max_depth : Option Nat
  include_hidden : Bool
  respect_ignore_files : Bool
  filter_options : Option FilterOptions
  collect_hashes : Bool
  hash_algorithm : HashAlgorithm
  deriving Repr, DecidableEq

/-- `ScanOptions::default()` (scanner.rs lines 32-44). -/
def ScanOptions.default : ScanOptions :=
  { follow_links := false, max_depth := none, include_hidden := false,
    respect_ignore_files := true, filter_options := none,
    collect_hashes := false, hash_algorithm := .Blake3 }

/-- `PreservationOptions` (preservation.rs lines 12-25). -/
structure PreservationOptions where
  preserve_mtime : Bool
  preserve_atime : Bool
  preserve_permissions : Bool
  preserve_ownership : Bool
  preserve_extended_attributes : Bool
  preserve_symlinks : Bool
  deriving Repr, DecidableEq

/-- `PreservationOptions::default()` (preservation.rs lines 27-38). -/
def PreservationOptions.default : PreservationOptions :=
  { preserve_mtime := true, preserve_atime := false, preserve_permissions := true,
    preserve_ownership := false, preserve_extended_attributes := false,
    preserve_symlinks := true }

/-- `SyncOptions` (sync_engine.rs lines 19-43). -/
structure SyncOptions where
  scan_options : ScanOptions
  comparison_method : ComparisonMethod
  conflict_strategy : ConflictStrategy
  filter_options : Option FilterOptions
  preservation_options : PreservationOptions
  dry_run : Bool
  delete_extra : Bool
  backup_directory : Option PathM
  max_concurrency : Nat
  buffer_size : Nat
  continue_on_error : Bool
  deriving Repr, DecidableEq

/-- `SyncOptions::default()` (sync_engine.rs lines 45-61); the comparison
method default is `SizeAndTimestamp` (comparator.rs lines 32-36) and the
conflict strategy default is `Manual` (conflict.rs lines 36-40). -/
def SyncOptions.default : SyncOptions :=
  { scan_options := ScanOptions.default, comparison_method := .SizeAndTimestamp,
    conflict_strategy := .Manual, filter_options := none,
    preservation_options := PreservationOptions.default, dry_run := false,
    delete_extra := true, backup_directory := none, max_concurrency := 4,
    buffer_size := 64 * 1024, continue_on_error := false }

/-- `FileFilter::new` (filter.rs lines 54-72 with `build_globset`, lines
121-141): compiling fails on the first invalid glob pattern, include
patterns first.  `valid` is the abstract pattern validity of the `globset`
compiler. -/
def fileFilterNew (valid : String → Bool) (options : FilterOptions) :
    Except SyncError FileFilter :=
  match options.include_patterns.find? (fun p => !valid p) with
  | some p => .error (.FilterPattern ("Failed to compile glob '" ++ p ++ "'"))
  | none =>
      match options.exclude_patterns.find? (fun p => !valid p) with
      | some p => .error (.FilterPattern ("Failed to compile glob '" ++ p ++ "'"))
      | none => .ok options

/-- `FileFilter::default()` (filter.rs lines 46-50):
`FileFilter::new(FilterOptions::default()).unwrap()`, which always succeeds
because the default options hold no patterns. -/
def FileFilter.defaultFilter : FileFilter := FilterOptions.default

/-- The `filter` field computed by `SyncEngine::new` (sync_engine.rs lines
88-90): a failed construction is discarded with `.ok()`, leaving `None`. -/
def syncEngineFilter (valid : String → Bool) (options : SyncOptions) :
    Option FileFilter :=
  options.filter_options.bind (fun opts => (fileFilterNew valid opts).toOption)

/-- The `filter` field computed by `DirectoryScanner::new` (scanner.rs lines
86-91): a failed construction is replaced by `FileFilter::default()`. -/
def scannerFilter (valid : String → Bool) (options : ScanOptions) :
    Option FileFilter :=
  options.filter_options.map (fun opts =>
    match fileFilterNew valid opts with
    | .ok f => f
    | .error _ => FileFilter.defaultFilter)

/-- `SyncEngine::should_include_action` (sync_engine.rs lines 247-266). -/
def shouldIncludeAction (M : GlobMatcher) (f : FileFilter) : SyncAction → Bool
  | .Copy source _ _ => shouldInclude M f source
  | .Update source _ _ => shouldInclude M f source
  | .Delete path => shouldInclude M f path
  | .CreateDirectory path => shouldInclude M f path
  | .Conflict source _ _ _ _ => shouldInclude M f source
  | .Skip path _ => shouldInclude M f path

/-- `SyncEngine::generate_sync_plan` (sync_engine.rs lines 217-244): run the
diff engine, drop actions rejected by the engine filter (when present), then
sort.  The summary is not recomputed after filtering. -/
def generateSyncPlan (M : GlobMatcher) (filter : Option FileFilter)
    (cmpE : EntryComparator) (comparison_method : ComparisonMethod)
    (source_entries dest_entries : List FileEntry) : Except SyncError SyncPlan := do
  let plan ← generatePlan cmpE source_entries dest_entries comparison_method
  let actions :=
    match filter with
    | some f => plan.actions.filter (shouldIncludeAction M f)
    | none => plan.actions
  pure (sortActions { plan with actions := actions })

/-- `generate_sync_plan` as invoked by an engine built with
`SyncEngine::new(options)` (sync_engine.rs lines 76-101 and 227-231): the
plan filter comes from `options.filter_options`, the method from
`options.comparison_method`.  `options.delete_extra` is visibly not
consulted anywhere on this path. -/
def engineGenerateSyncPlan (M : GlobMatcher) (valid : String → Bool)
    (cmpE : EntryComparator) (options : SyncOptions)
    (source_entries dest_entries : List FileEntry) : Except SyncError SyncPlan :=
  generateSyncPlan M (syncEngineFilter valid options) cmpE
    options.comparison_method source_entries dest_entries

/-! ## Metrics (src/sync/src/metrics.rs) -/

/-- `FileOperation` (progress.rs lines 91-99). -/
inductive FileOperation where
  | Copy
  | Update
  | Delete
  | CreateDirectory
  | Skip
  | Conflict
  deriving Repr, DecidableEq

/-- Debug rendering of `FileOperation` (Rust `{:?}`), used as the map key of
the operation breakdown. -/
def FileOperation.debugStr : FileOperation → String
  | .Copy => "Copy"
  | .Update => "Update"
  | .Delete => "Delete"
  | .CreateDirectory => "CreateDirectory"
  | .Skip => "Skip"
  | .Conflict => "Conflict"

/-- `FileStats` (metrics.rs lines 37-57). -/
structure FileStats where
  scanned : Nat
  processed : Nat
  copied : Nat
  updated : Nat
  deleted : Nat
  skipped : Nat
  directories_created : Nat
  conflicts : Nat
  failed : Nat
  deriving Repr, DecidableEq

/-- `FileStats::default()` (metrics.rs lines 412-426). -/
def FileStats.default : FileStats :=
  { scanned := 0, processed := 0, copied := 0, updated := 0, deleted := 0,
    skipped := 0, directories_created := 0, conflicts := 0, failed := 0 }

/-- `TransferStats` (metrics.rs lines 60-76); `average_file_size` is only
written by `calculate_performance_stats`. -/
structure TransferStats where
  bytes_scanned : Nat
  bytes_transferred : Nat
  bytes_copied : Nat
  bytes_updated : Nat
  largest_file_size : Nat
  smallest_file_size : Nat
  average_file_size : Nat
  deriving Repr, DecidableEq

/-- `TransferStats::default()` (metrics.rs lines 428-440). -/
def TransferStats.default : TransferStats :=
  { bytes_scanned := 0, bytes_transferred := 0, bytes_copied := 0,
    bytes_updated := 0, largest_file_size := 0, smallest_file_size := 0,
    average_file_size := 0 }

/-- `ErrorStats` (metrics.rs lines 96-108); the `HashMap` of counts is an
association list. -/
structure ErrorStats where
  total_errors : Nat
  total_warnings : Nat
  errors_by_type : List (String × Nat)
  critical_errors : List String
  recoverable_errors : List String
  deriving Repr, DecidableEq

/-- `ErrorStats::default()` (metrics.rs lines 455-465). -/
def ErrorStats.default : ErrorStats :=
  { total_errors := 0, total_warnings := 0, errors_by_type := [],
    critical_errors := [], recoverable_errors := [] }

/-- `OperationStats` (metrics.rs lines 111-119); durations in abstract time
units. -/
structure OperationStats where
  operation_times : List (String × Nat)
  operation_counts : List (String × Nat)
  operation_bytes : List (String × Nat)
  deriving Repr, DecidableEq

/-- `OperationStats::default()` (metrics.rs lines 467-475). -/
def OperationStats.default : OperationStats :=
  { operation_times := [], operation_counts := [], operation_bytes := [] }

/-- `ConflictStats` (metrics.rs lines 122-132). -/
structure ConflictStats where
  total_conflicts : Nat
  auto_resolved : Nat
  manual_intervention : Nat
  resolution_strategies : List (String × Nat)
  deriving Repr, DecidableEq

/-- `ConflictStats::default()` (metrics.rs lines 477-486). -/
def ConflictStats.default : ConflictStats :=
  { total_conflicts := 0, auto_resolved := 0, manual_intervention := 0,
    resolution_strategies := [] }

/-- `SyncMetrics` (metrics.rs lines 12-34) restricted to its counter state.
The ambient-IO fields (`session_id`, `start_time`, `end_time`, `duration`)
and the floating-point `PerformanceStats` rates are outside the model; none
of the embedded operations below reads them. -/
structure SyncMetrics where
  files : FileStats
  transfer : TransferStats
  errors : ErrorStats
  operations : OperationStats
  conflicts : ConflictStats
  deriving Repr, DecidableEq

/-- `SyncMetrics::new()` (metrics.rs lines 142-155). -/
def SyncMetrics.new : SyncMetrics :=
  { files := FileStats.default, transfer := TransferStats.default,
    errors := ErrorStats.default, operations := OperationStats.default,
    conflicts := ConflictStats.default }

/-- `*map.entry(key).or_insert(0) += d` over the association-list model of a
`HashMap` counter. -/
def assocBump : List (String × Nat) → String → Nat → List (String × Nat)
  | [], key, d => [(key, d)]
  | (k, v) :: rest, key, d =>
      if k = key then (k, v + d) :: rest else (k, v) :: assocBump rest key d

/-- `SyncMetrics::record_file_operation` (metrics.rs lines 190-243), with
the tracing span elided (logging only). -/
def recordFileOperation (m : SyncMetrics) (operation : FileOperation)
    (file_size duration : Nat) : SyncMetrics :=
  let files0 := { m.files with processed := m.files.processed + 1 }
  let (files1, transfer1, conflicts1) :=
    match operation with
    | .Copy =>
        ({ files0 with copied := files0.copied + 1 },
         { m.transfer with bytes_copied := m.transfer.bytes_copied + file_size },
         m.conflicts)
    | .Update =>
        ({ files0 with updated := files0.updated + 1 },
         { m.transfer with bytes_updated := m.transfer.bytes_updated + file_size },
         m.conflicts)
    | .Delete => ({ files0 with deleted := files0.deleted + 1 }, m.transfer, m.conflicts)
    | .CreateDirectory =>
        ({ files0 with directories_created := files0.directories_created + 1 },
         m.transfer, m.conflicts)
    | .Skip => ({ files0 with skipped := files0.skipped + 1 }, m.transfer, m.conflicts)
    | .Conflict =>
        ({ files0 with conflicts := files0.conflicts + 1 }, m.transfer,
         { m.conflicts with total_conflicts := m.conflicts.total_conflicts + 1 })
  let transfer2 :=
    if file_size > 0 then
      let t := { transfer1 with
        bytes_transferred := transfer1.bytes_transferred + file_size }
      let t := if t.largest_file_size = 0 || file_size > t.largest_file_size then
          { t with largest_file_size := file_size } else t
      if t.smallest_file_size = 0 || file_size < t.smallest_file_size then
        { t with smallest_file_size := file_size } else t
    else transfer1
  let opName := operation.debugStr
  { m with
    files := files1
    transfer := transfer2
    conflicts := conflicts1
    operations :=
      { operation_counts := assocBump m.operations.operation_counts opName 1
        operation_times := assocBump m.operations.operation_times opName duration
        operation_bytes := assocBump m.operations.operation_bytes opName file_size } }

/-- `SyncMetrics::record_error` (metrics.rs lines 246-273), with the log
statements elided. -/
def recordError (m : SyncMetrics) (error_type message : String)
    (is_critical : Bool) : SyncMetrics :=
  let errors0 := { m.errors with
    total_errors := m.errors.total_errors + 1
    errors_by_type := assocBump m.errors.errors_by_type error_type 1 }
  let errors1 :=
    if is_critical then
      { errors0 with critical_errors := errors0.critical_errors ++ [message] }
    else
      { errors0 with recoverable_errors := errors0.recoverable_errors ++ [message] }
  { m with errors := errors1 }

/-! ## Filesystem model and executor (src/sync/src/sync_engine.rs) -/

/-- A filesystem node: a directory or a regular file with byte content. -/
inductive FsNode where
  | dir
  | file (content : List Nat)
  deriving Repr, DecidableEq

/-- Filesystem state: a finite map from absolute paths to nodes, kept as an
association list with unique keys. -/
structure Fs where
  entries : List (PathM × FsNode)
  deriving Repr, DecidableEq

/-- Look a path up in the filesystem. -/
def fsGet (fs : Fs) (p : PathM) : Option FsNode := assocGet fs.entries p

/-- `Path::exists`. -/
def fsExists (fs : Fs) (p : PathM) : Bool := (fsGet fs p).isSome

/-- `Path::is_dir`. -/
def fsIsDir (fs : Fs) (p : PathM) : Bool := fsGet fs p = some .dir

/-- Overwrite or insert a node. -/
def fsSet (fs : Fs) (p : PathM) (n : FsNode) : Fs :=
  if fs.entries.any (fun e => e.1 = p) then
    ⟨fs.entries.map (fun e => if e.1 = p then (p, n) else e)⟩
  else
    ⟨fs.entries ++ [(p, n)]⟩

/-- The non-empty prefixes of a path, shortest first. -/
def prefixesOf (p : PathM) : List PathM :=
  (List.range p.length).map (fun i => p.take (i + 1))

/-- Create each prefix directory in turn; stop with the I/O error text when a
prefix already exists as a regular file. -/
def createDirAllAux : Fs → List PathM → Fs × Except String Unit
  | fs, [] => (fs, .ok ())
  | fs, pre :: rest =>
      match fsGet fs pre with
      | some (.file _) => (fs, .error "File exists (os error 17)")
      | some .dir => createDirAllAux fs rest
      | none => createDirAllAux (fsSet fs pre .dir) rest

/-- `tokio::fs::create_dir_all` (recursively create a directory and all of
its missing ancestors; an empty path is a no-op). -/
def createDirAll (fs : Fs) (p : PathM) : Fs × Except String Unit :=
  createDirAllAux fs (prefixesOf p)

/-- `tokio::fs::copy`: read the source file's bytes and write them at the
destination. -/
def fsCopy (fs : Fs) (src dst : PathM) : Fs × Except String Unit :=
  match fsGet fs src with
  | some (.file c) =>
      match fsGet fs dst with
      | some .dir => (fs, .error "Is a directory (os error 21)")
      | _ => (fsSet fs dst (.file c), .ok ())
  | some .dir => (fs, .error "Is a directory (os error 21)")
  | none => (fs, .error "No such file or directory (os error 2)")

/-- `tokio::fs::remove_file`. -/
def fsRemoveFile (fs : Fs) (p : PathM) : Fs × Except String Unit :=
  match fsGet fs p with
  | some (.file _) => (⟨fs.entries.filter (fun e => e.1 ≠ p)⟩, .ok ())
  | some .dir => (fs, .error "Is a directory (os error 21)")
  | none => (fs, .error "No such file or directory (os error 2)")

/-- `tokio::fs::remove_dir_all`: remove the path and everything below it. -/
def fsRemoveDirAll (fs : Fs) (p : PathM) : Fs × Except String Unit :=
  if fsExists fs p then
    (⟨fs.entries.filter (fun e => ¬ p.isPrefixOf e.1)⟩, .ok ())
  else
    (fs, .error "No such file or directory (os error 2)")

/-- `SyncEngine::copy_file` (sync_engine.rs lines 445-472): a dry run
returns immediately; otherwise ensure the parent directory, copy the bytes,
and (attribute preservation touches no file content and swallows its own
errors, lines 463-469, so it does not appear in the state model). -/
def copyFile (options : SyncOptions) (source destination : PathM) (fs : Fs) :
    Fs × Except SyncError Unit :=
  if options.dry_run then (fs, .ok ())
  else
    match createDirAll fs destination.dropLast with
    | (fs1, .error e) =>
        (fs1, .error (SyncError.copyError source destination
          ("Failed to create parent directory: " ++ e)))
    | (fs1, .ok ()) =>
        match fsCopy fs1 source destination with
        | (fs2, .error e) =>
            (fs2, .error (SyncError.copyError source destination
              ("Failed to copy file: " ++ e)))
        | (fs2, .ok ()) => (fs2, .ok ())

/-- `SyncEngine::delete_file` (sync_engine.rs lines 475-489). -/
def deleteFile (options : SyncOptions) (path : PathM) (fs : Fs) :
    Fs × Except SyncError Unit :=
  if options.dry_run then (fs, .ok ())
  else if fsIsDir fs path then
    match fsRemoveDirAll fs path with
    | (fs1, .error e) =>
        (fs1, .error (SyncError.deletionError path ("Failed to delete directory: " ++ e)))
    | (fs1, .ok ()) => (fs1, .ok ())
  else
    match fsRemoveFile fs path with
    | (fs1, .error e) =>
        (fs1, .error (SyncError.deletionError path ("Failed to delete file: " ++ e)))
    | (fs1, .ok ()) => (fs1, .ok ())

/-- `SyncEngine::create_directory` (sync_engine.rs lines 492-500). -/
def createDirectory (options : SyncOptions) (path : PathM) (fs : Fs) :
    Fs × Except SyncError Unit :=
  if options.dry_run then (fs, .ok ())
  else
    match createDirAll fs path with
    | (fs1, .error e) =>
        (fs1, .error (SyncError.pathError path ("Failed to create directory: " ++ e)))
    | (fs1, .ok ()) => (fs1, .ok ())

/-- The destination-root step of `SyncEngine::sync_with_progress`
(sync_engine.rs lines 130-141): a missing destination root is created,
except in dry-run mode where only an informational event is emitted. -/
def ensureDestRoot (options : SyncOptions) (dest_path : PathM) (fs : Fs) :
    Fs × Except SyncError Unit :=
  if fsExists fs dest_path then (fs, .ok ())
  else if options.dry_run then (fs, .ok ())
  else
    match createDirAll fs dest_path with
    | (fs1, .error e) =>
        (fs1, .error (SyncError.pathError dest_path
          ("Failed to create destination directory: " ++ e)))
    | (fs1, .ok ()) => (fs1, .ok ())

/-- `SyncEngine::execute_action` on the non-Conflict variants (sync_engine.rs
lines 332-403 and 438-441).  When a progress reporter is attached, the
Copy/Update arms read the source's metadata for the start event and
propagate its I/O error (lines 337-344); the reads mutate nothing. -/
def executeBasicAction (options : SyncOptions) (reporterPresent : Bool)
    (source_root dest_root : PathM) (fs : Fs) :
    SyncAction → Fs × Except SyncError FileOperation
  | .Copy source destination _ =>
      let source_path := source_root ++ source
      let dest_path := dest_root ++ destination
      if reporterPresent && !fsExists fs source_path then
        (fs, .error (.Io "No such file or directory (os error 2)"))
      else
        match copyFile options source_path dest_path fs with
        | (fs1, .error e) => (fs1, .error e)
        | (fs1, .ok ()) => (fs1, .ok .Copy)
  | .Update source destination _ =>
      let source_path := source_root ++ source
      let dest_path := dest_root ++ destination
      if reporterPresent && !fsExists fs source_path then
        (fs, .error (.Io "No such file or directory (os error 2)"))
      else
        match copyFile options source_path dest_path fs with
        | (fs1, .error e) => (fs1, .error e)
        | (fs1, .ok ()) => (fs1, .ok .Update)
  | .Delete path =>
      match deleteFile options (dest_root ++ path) fs with
      | (fs1, .error e) => (fs1, .error e)
      | (fs1, .ok ()) => (fs1, .ok .Delete)
  | .CreateDirectory path =>
      match createDirectory options (dest_root ++ path) fs with
      | (fs1, .error e) => (fs1, .error e)
      | (fs1, .ok ()) => (fs1, .ok .CreateDirectory)
  | .Skip _ _ => (fs, .ok .Skip)
  | .Conflict _ _ _ _ _ => (fs, .ok .Conflict)

/-- `SyncEngine::execute_action` (sync_engine.rs lines 325-442).  A Conflict
is resolved and the produced action re-dispatched (the boxed recursive call
at line 432); `resolution_to_action` never yields another Conflict, so one
basic dispatch is equivalent to the recursion.  `nowTs` feeds the resolver's
backup-path timestamp. -/
def executeAction (options : SyncOptions) (resolver : ConflictResolver)
    (nowTs : String) (reporterPresent : Bool) (source_root dest_root : PathM)
    (fs : Fs) (action : SyncAction) : Fs × Except SyncError FileOperation :=
  match action with
  | .Conflict source destination conflict_type source_info destination_info =>
      match resolveConflict resolver nowTs source destination conflict_type
          source_info destination_info with
      | .error e => (fs, .error e)
      | .ok resolution =>
          match resolutionToAction resolution source destination source_info with
          | .error e => (fs, .error e)
          | .ok none => (fs, .ok .Conflict)
          | .ok (some resolved_action) =>
              executeBasicAction options reporterPresent source_root dest_root
                fs resolved_action
  | a => executeBasicAction options reporterPresent source_root dest_root fs a

/-- `SyncEngine::get_action_file_size` (sync_engine.rs lines 503-509). -/
def engineActionFileSize : SyncAction → Nat
  | .Copy _ _ file_size => file_size
  | .Update _ _ file_size => file_size
  | .Conflict _ _ _ source_info _ => source_info.size
  | _ => 0

/-- The loop body of `SyncEngine::execute_sync_plan` (sync_engine.rs lines
281-319): per action, success records a file operation, failure records an
error whose criticality is `!continue_on_error`; with `continue_on_error`
unset the loop returns the error at once.  Durations are abstract (0). -/
def executeSyncPlanAux (options : SyncOptions) (resolver : ConflictResolver)
    (nowTs : String) (reporterPresent : Bool) (source_root dest_root : PathM) :
    List SyncAction → Fs → SyncMetrics → Fs × SyncMetrics × Except SyncError Unit
  | [], fs, metrics => (fs, metrics, .ok ())
  | action :: rest, fs, metrics =>
      match executeAction options resolver nowTs reporterPresent source_root
          dest_root fs action with
      | (fs1, .ok file_op) =>
          executeSyncPlanAux options resolver nowTs reporterPresent source_root
            dest_root rest fs1
            (recordFileOperation metrics file_op (engineActionFileSize action) 0)
      | (fs1, .error e) =>
          let metrics1 := recordError metrics "ActionExecution"
            (SyncError.toDisplay e) (!options.continue_on_error)
          if options.continue_on_error then
            executeSyncPlanAux options resolver nowTs reporterPresent
              source_root dest_root rest fs1 metrics1
          else
            (fs1, metrics1, .error e)

/-- `SyncEngine::execute_sync_plan` (sync_engine.rs lines 269-322). -/
def executeSyncPlan (options : SyncOptions) (resolver : ConflictResolver)
    (nowTs : String) (reporterPresent : Bool) (plan : SyncPlan)
    (source_root dest_root : PathM) (fs : Fs) (metrics : SyncMetrics) :
    Fs × SyncMetrics × Except SyncError Unit :=
  executeSyncPlanAux options resolver nowTs reporterPresent source_root
    dest_root plan.actions fs metrics

/-! ## Sample values used by concrete evaluations -/

/-- A destination-only regular file entry with relative path `old.txt`. -/
def oldEntry : FileEntry :=
  { path := ["dst", "old.txt"], relative_path := ["old.txt"], size := 100,
    modified := 0, created := none, is_dir := false, is_symlink := false,
    hash := none, permissions := 420 }

/-- A directory entry under a scan root, with the given relative path. -/
def mkDirEntry (rel : PathM) : FileEntry :=
  { path := "src" :: rel, relative_path := rel, size := 0, modified := 0,
    created := none, is_dir := true, is_symlink := false, hash := none,
    permissions := 493 }

/-- A regular-file `FileInfo` sample. -/
def fi0 : FileInfo :=
  { size := 100, modified := 0, is_dir := false, is_symlink := false,
    permissions := 420, hash := none }

/-- A degenerate digest function for instantiations where hashing is never
reached. -/
def h0 : List Nat → String := fun _ => ""

/-! ## C1 -/

/-- C1: the claim says that with `delete_extra=false` the plan contains a
Skip and no Delete for a destination-only path.  The code never reads
`delete_extra`: with `SyncOptions { delete_extra := false, .. }` and a
destination-only file `old.txt`, the engine's sorted plan is exactly
`[Delete old.txt]` — a Delete and no Skip.  (With `delete_extra=true` the
claim's Delete half is what the code always does.) -/
theorem c1_delete_extra_ignored :
    (engineGenerateSyncPlan extGlobMatch (fun _ => true)
        (fun _ _ _ => .ok .Identical)
        { SyncOptions.default with delete_extra := false }
        [] [oldEntry]).map (fun plan => plan.actions)
      = .ok [.Delete ["old.txt"]] := by
  rfl

/-! ## C3 -/

/-- C3: the claim says a failed action under `continue_on_error=true` is
counted in `files.failed` and its message listed in
`errors.recoverable_errors`.  Executing a plan whose single Copy action
fails (missing source file) records the message as recoverable and counts
the error, but `files.failed` stays 0 — nothing in the engine ever
increments it. -/
theorem c3_failed_never_incremented :
    (executeSyncPlan { SyncOptions.default with continue_on_error := true }
        { default_strategy := .Manual, type_strategies := [], backup_directory := none }
        "20260101_000000" false
        { actions := [.Copy ["a.txt"] ["a.txt"] 5], summary := PlanSummary.default }
        ["srcroot"] ["dstroot"] { entries := [] } SyncMetrics.new).2.1.files.failed = 0
    ∧ (executeSyncPlan { SyncOptions.default with continue_on_error := true }
        { default_strategy := .Manual, type_strategies := [], backup_directory := none }
        "20260101_000000" false
        { actions := [.Copy ["a.txt"] ["a.txt"] 5], summary := PlanSummary.default }
        ["srcroot"] ["dstroot"] { entries := [] } SyncMetrics.new).2.1.errors.recoverable_errors.length = 1
    ∧ (executeSyncPlan { SyncOptions.default with continue_on_error := true }
        { default_strategy := .Manual, type_strategies := [], backup_directory := none }
        "20260101_000000" false
        { actions := [.Copy ["a.txt"] ["a.txt"] 5], summary := PlanSummary.default }
        ["srcroot"] ["dstroot"] { entries := [] } SyncMetrics.new).2.1.errors.total_errors = 1
    ∧ (executeSyncPlan { SyncOptions.default with continue_on_error := true }
        { default_strategy := .Manual, type_strategies := [], backup_directory := none }
        "20260101_000000" false
        { actions := [.Copy ["a.txt"] ["a.txt"] 5], summary := PlanSummary.default }
        ["srcroot"] ["dstroot"] { entries := [] } SyncMetrics.new).2.2 = .ok () := by
  refine ⟨by decide, by decide, by decide, rfl⟩

/-! ## C5 -/

/-- C5: the claim says the backup suffix is `dst` when backing up the
destination.  With a configured backup directory `bk`, strategy
`BackupAndUseSource` on destination `dst/f.txt` produces the backup basename
`f.txt_dest.20260101_000000` — the code's suffix is `dest`, not the claimed
`dst`. -/
theorem c5_backup_suffix_counterexample :
    applyStrategy
        { default_strategy := .Manual, type_strategies := [], backup_directory := some ["bk"] }
        "20260101_000000" .BackupAndUseSource ["src", "f.txt"] ["dst", "f.txt"]
        .BothModified fi0 fi0
      = .ok (.BackupAndUseSource ["bk", "f.txt_dest.20260101_000000"])
    ∧ "f.txt_dest.20260101_000000" ≠ "f.txt" ++ "_dst." ++ "20260101_000000" := by
  exact ⟨rfl, by decide⟩

/-- C5 (amended): for `BackupAndUseSource` the resolution carries backup
path `<backup_directory>/<destination-basename>_dest.<timestamp>`, for
`BackupAndKeepDestination` it carries
`<backup_directory>/<source-basename>_src.<timestamp>`, and with no backup
directory configured both strategies fail with a `ConflictResolution`
error. -/
theorem c5_backup_path_amended (resolver r2 : ConflictResolver) (nowTs : String)
    (source destination : PathM) (conflict_type : ConflictType)
    (source_info destination_info : FileInfo) (d : PathM) (sname dname : String)
    (hdir : resolver.backup_directory = some d)
    (hdst : destination.getLast? = some dname) (hdst2 : dname ≠ "..")
    (hsrc : source.getLast? = some sname) (hsrc2 : sname ≠ "..")
    (hnone : r2.backup_directory = none) :
    applyStrategy resolver nowTs .BackupAndUseSource source destination
        conflict_type source_info destination_info
      = .ok (.BackupAndUseSource (d ++ [dname ++ "_" ++ "dest" ++ "." ++ nowTs]))
    ∧ applyStrategy resolver nowTs .BackupAndKeepDestination source destination
        conflict_type source_info destination_info
      = .ok (.BackupAndKeepDestination (d ++ [sname ++ "_" ++ "src" ++ "." ++ nowTs]))
    ∧ applyStrategy r2 nowTs .BackupAndUseSource source destination
        conflict_type source_info destination_info
      = .error (.ConflictResolution "No backup directory configured")
    ∧ applyStrategy r2 nowTs .BackupAndKeepDestination source destination
        conflict_type source_info destination_info
      = .error (.ConflictResolution "No backup directory configured") := by
  refine ⟨?_, ?_, ?_, ?_⟩ <;>
    simp [applyStrategy, generateBackupPath, hdir, hdst, hdst2, hsrc, hsrc2, hnone,
      Except.bind]

/-- C5 amended, witnessed at resolver `{backup_directory := bk}` versus one
with no backup directory, paths `src/f.txt` and `dst/f.txt`. -/
theorem c5_backup_path_amended_witness :
    applyStrategy
        { default_strategy := .Manual, type_strategies := [], backup_directory := some ["bk"] }
        "20260101_000000" .BackupAndUseSource ["src", "f.txt"] ["dst", "f.txt"]
        .BothModified fi0 fi0
      = .ok (.BackupAndUseSource (["bk"] ++ ["f.txt" ++ "_" ++ "dest" ++ "." ++ "20260101_000000"]))
    ∧ applyStrategy
        { default_strategy := .Manual, type_strategies := [], backup_directory := some ["bk"] }
        "20260101_000000" .BackupAndKeepDestination ["src", "f.txt"] ["dst", "f.txt"]
        .BothModified fi0 fi0
      = .ok (.BackupAndKeepDestination (["bk"] ++ ["f.txt" ++ "_" ++ "src" ++ "." ++ "20260101_000000"]))
    ∧ applyStrategy
        { default_strategy := .Manual, type_strategies := [], backup_directory := none }
        "20260101_000000" .BackupAndUseSource ["src", "f.txt"] ["dst", "f.txt"]
        .BothModified fi0 fi0
      = .error (.ConflictResolution "No backup directory configured")
    ∧ applyStrategy
        { default_strategy := .Manual, type_strategies := [], backup_directory := none }
        "20260101_000000" .BackupAndKeepDestination ["src", "f.txt"] ["dst", "f.txt"]
        .BothModified fi0 fi0
      = .error (.ConflictResolution "No backup directory configured") := by
  exact c5_backup_path_amended _ _ _ _ _ _ _ _ _ _ _ rfl rfl (by decide) rfl (by decide) rfl

/-! ## C6 -/

/-- C6: for entries present on both sides that are plain files of the same
kind (neither is a directory, same symlink status), the differ maps the
comparator's verdict exactly as: Identical → Skip; SourceNewer → Update;
DestinationNewer → Conflict(BothModified); DifferentSize → SizeMismatch
conflict on equal mtimes, Update when the source mtime is newer,
BothModified conflict when the destination mtime is newer; DifferentContent
→ Update when the source mtime is newer, else BothModified conflict. -/
theorem c6_verdict_mapping (source destination : FileEntry) (m : ComparisonMethod)
    (hd : source.is_dir = false) (hd' : destination.is_dir = false)
    (hs : source.is_symlink = destination.is_symlink) :
    compareAndDecide (fun _ _ _ => .ok .Identical) source destination m
      = .ok (.Skip source.relative_path "Files are identical")
    ∧ compareAndDecide (fun _ _ _ => .ok .SourceNewer) source destination m
      = .ok (.Update source.relative_path destination.relative_path source.size)
    ∧ compareAndDecide (fun _ _ _ => .ok .DestinationNewer) source destination m
      = .ok (.Conflict source.relative_path destination.relative_path .BothModified
          (FileInfo.fromEntry source) (FileInfo.fromEntry destination))
    ∧ compareAndDecide (fun _ _ _ => .ok .DifferentSize) source destination m
      = .ok (if source.modified = destination.modified then
            .Conflict source.relative_path destination.relative_path .SizeMismatch
              (FileInfo.fromEntry source) (FileInfo.fromEntry destination)
          else if source.modified > destination.modified then
            .Update source.relative_path destination.relative_path source.size
          else
            .Conflict source.relative_path destination.relative_path .BothModified
              (FileInfo.fromEntry source) (FileInfo.fromEntry destination))
    ∧ compareAndDecide (fun _ _ _ => .ok .DifferentContent) source destination m
      = .ok (if source.modified > destination.modified then
            .Update source.relative_path destination.relative_path source.size
          else
            .Conflict source.relative_path destination.relative_path .BothModified
              (FileInfo.fromEntry source) (FileInfo.fromEntry destination)) := by
  refine ⟨?_, ?_, ?_, ?_, ?_⟩ <;>
    simp [compareAndDecide, hd, hd', hs] <;> split_ifs <;> rfl

/-- A source regular-file entry, newer (mtime 5) and smaller than `dstE`. -/
def srcE : FileEntry :=
  { path := ["s", "f.txt"], relative_path := ["f.txt"], size := 10,
    modified := 5, created := none, is_dir := false, is_symlink := false,
    hash := none, permissions := 420 }

/-- A destination regular-file entry with mtime 3. -/
def dstE : FileEntry :=
  { path := ["d", "f.txt"], relative_path := ["f.txt"], size := 20,
    modified := 3, created := none, is_dir := false, is_symlink := false,
    hash := none, permissions := 420 }

/-- C6 witnessed on the concrete file pair `srcE`/`dstE` (source newer). -/
theorem c6_verdict_mapping_witness :
    compareAndDecide (fun _ _ _ => .ok .Identical) srcE dstE .SizeAndTimestamp
      = .ok (.Skip ["f.txt"] "Files are identical")
    ∧ compareAndDecide (fun _ _ _ => .ok .SourceNewer) srcE dstE .SizeAndTimestamp
      = .ok (.Update ["f.txt"] ["f.txt"] 10)
    ∧ compareAndDecide (fun _ _ _ => .ok .DestinationNewer) srcE dstE .SizeAndTimestamp
      = .ok (.Conflict ["f.txt"] ["f.txt"] .BothModified
          (FileInfo.fromEntry srcE) (FileInfo.fromEntry dstE))
    ∧ compareAndDecide (fun _ _ _ => .ok .DifferentSize) srcE dstE .SizeAndTimestamp
      = .ok (.Update ["f.txt"] ["f.txt"] 10)
    ∧ compareAndDecide (fun _ _ _ => .ok .DifferentContent) srcE dstE .SizeAndTimestamp
      = .ok (.Update ["f.txt"] ["f.txt"] 10) := by
  have h := c6_verdict_mapping srcE dstE .SizeAndTimestamp rfl rfl rfl
  refine ⟨h.1, h.2.1, h.2.2.1, ?_, ?_⟩
  · rw [h.2.2.2.1]; rfl
  · rw [h.2.2.2.2]; rfl

/-! ## C10 -/

/-- C10: an invalid glob pattern in the filter options does not fail
engine or scanner construction: the engine drops the filter entirely
(`.ok()` discards the `FilterPattern` error, so no plan filtering happens),
the scanner falls back to `FileFilter::default()`, and that default filter
accepts every path and size — the invalid pattern is silently ignored. -/
theorem c10_invalid_pattern_ignored (valid : String → Bool) (fo : FilterOptions)
    (options : SyncOptions) (so : ScanOptions) (M : GlobMatcher) (p : PathM)
    (s : Nat) (hopts : options.filter_options = some fo)
    (hso : so.filter_options = some fo)
    (hbad : (fo.include_patterns ++ fo.exclude_patterns).any
      (fun pat => !valid pat) = true) :
    syncEngineFilter valid options = none
    ∧ scannerFilter valid so = some FileFilter.defaultFilter
    ∧ shouldIncludeFile M FileFilter.defaultFilter p s = true := by
  have herr : ∃ e, fileFilterNew valid fo = .error e := by
    rcases hinc : fo.include_patterns.find? (fun pat => !valid pat) with _ | q
    · rcases hexc : fo.exclude_patterns.find? (fun pat => !valid pat) with _ | q
      · exfalso
        have hincAll := List.find?_eq_none.mp hinc
        have hexcAll := List.find?_eq_none.mp hexc
        rcases List.any_eq_true.mp hbad with ⟨x, hx, hxbad⟩
        rcases List.mem_append.mp hx with hx' | hx'
        · exact absurd hxbad (by simpa using hincAll x hx')
        · exact absurd hxbad (by simpa using hexcAll x hx')
      · exact ⟨.FilterPattern ("Failed to compile glob '" ++ q ++ "'"),
          by simp [fileFilterNew, hinc, hexc]⟩
    · exact ⟨.FilterPattern ("Failed to compile glob '" ++ q ++ "'"),
          by simp [fileFilterNew, hinc]⟩
  rcases herr with ⟨e, he⟩
  refine ⟨?_, ?_, ?_⟩
  · simp [syncEngineFilter, hopts, he, Except.toOption]
  · simp [scannerFilter, hso, he]
  · simp [shouldIncludeFile, shouldInclude, shouldIncludeSize,
      FileFilter.defaultFilter, FilterOptions.default]

/-- C10 witnessed with the invalid glob pattern `[` (unclosed character
class) as include pattern, validity judging exactly that pattern invalid. -/
theorem c10_invalid_pattern_ignored_witness :
    syncEngineFilter (fun pat => pat ≠ "[")
        { SyncOptions.default with
          filter_options := some { FilterOptions.default with include_patterns := ["["] } }
      = none
    ∧ scannerFilter (fun pat => pat ≠ "[")
        { ScanOptions.default with
          filter_options := some { FilterOptions.default with include_patterns := ["["] } }
      = some FileFilter.defaultFilter
    ∧ shouldIncludeFile extGlobMatch FileFilter.defaultFilter ["x.txt"] 0 = true := by
  exact c10_invalid_pattern_ignored (fun pat => pat ≠ "[")
    { FilterOptions.default with include_patterns := ["["] } _ _ extGlobMatch
    ["x.txt"] 0 rfl rfl (by decide)

/-! ## C8 -/

/-- C8: the claim says that with both input paths missing, `compare` fails
with a `Comparison` error.  It does not: it returns
`Ok(ComparisonResult::Error("Neither file exists"))` — an `Ok` value, not an
`Err` (comparator.rs line 103). -/
theorem c8_both_missing_counterexample :
    FileComparator.compare h0 h0 ["s"] ["d"] none none .Size
      = .ok (.Error "Neither file exists")
    ∧ (FileComparator.compare h0 h0 ["s"] ["d"] none none .Size).toOption.isSome
      = true := by
  exact ⟨rfl, rfl⟩

/-- C8 (amended): with exactly one input missing, `compare` returns
`Ok(SourceOnly)` / `Ok(DestinationOnly)` and never an error; with both
inputs missing it returns `Ok(ComparisonResult::Error("Neither file
exists"))` rather than failing; and when both inputs exist and either is a
directory it fails with a `Comparison` error. -/
theorem c8_missing_and_directory_amended (h256 hb3 : List Nat → String)
    (sourcePath destPath : PathM) (s d : FileMeta) (m : ComparisonMethod)
    (hdir : (s.is_dir || d.is_dir) = true) :
    FileComparator.compare h256 hb3 sourcePath destPath (some s) none m
      = .ok .SourceOnly
    ∧ FileComparator.compare h256 hb3 sourcePath destPath none (some d) m
      = .ok .DestinationOnly
    ∧ FileComparator.compare h256 hb3 sourcePath destPath none none m
      = .ok (.Error "Neither file exists")
    ∧ FileComparator.compare h256 hb3 sourcePath destPath (some s) (some d) m
      = .error (SyncError.comparisonError sourcePath destPath
          "Cannot compare directories") := by
  refine ⟨rfl, rfl, rfl, ?_⟩
  simp [FileComparator.compare, hdir]

/-- C8 amended, witnessed with a regular file and a directory on concrete
paths. -/
theorem c8_missing_and_directory_amended_witness :
    FileComparator.compare h0 h0 ["s"] ["d"]
        (some { is_dir := false, size := 1, modified := 0, content := [7] }) none .Size
      = .ok .SourceOnly
    ∧ FileComparator.compare h0 h0 ["s"] ["d"] none
        (some { is_dir := true, size := 0, modified := 0, content := [] }) .Size
      = .ok .DestinationOnly
    ∧ FileComparator.compare h0 h0 ["s"] ["d"] none none .Size
      = .ok (.Error "Neither file exists")
    ∧ FileComparator.compare h0 h0 ["s"] ["d"]
        (some { is_dir := false, size := 1, modified := 0, content := [7] })
        (some { is_dir := true, size := 0, modified := 0, content := [] }) .Size
      = .error (SyncError.comparisonError ["s"] ["d"] "Cannot compare directories") := by
  exact c8_missing_and_directory_amended h0 h0 ["s"] ["d"]
    { is_dir := false, size := 1, modified := 0, content := [7] }
    { is_dir := true, size := 0, modified := 0, content := [] } .Size (by decide)

/-! ## C9 -/

/-- Swap symmetry of the per-method verdict on two existing regular files:
`Identical` is symmetric, `SourceNewer`/`DestinationNewer` swap, and the
one-sided verdicts never arise here. -/
theorem compareExisting_symm (h256 hb3 : List Nat → String) (s d : FileMeta)
    (m : ComparisonMethod) :
    (compareExisting h256 hb3 s d m = .Identical
      ↔ compareExisting h256 hb3 d s m = .Identical)
    ∧ (compareExisting h256 hb3 s d m = .SourceNewer
      ↔ compareExisting h256 hb3 d s m = .DestinationNewer)
    ∧ (compareExisting h256 hb3 s d m = .DestinationNewer
      ↔ compareExisting h256 hb3 d s m = .SourceNewer)
    ∧ compareExisting h256 hb3 s d m ≠ .SourceOnly
    ∧ compareExisting h256 hb3 s d m ≠ .DestinationOnly := by
  cases m <;>
    simp only [compareExisting, compareByTimestamp] <;>
    split_ifs <;> simp_all <;> omega

/-- C9: for every comparison method and every pair of inputs,
`compare(a, b, M) = Identical ⇔ compare(b, a, M) = Identical`, and swapping
the arguments swaps `SourceNewer` with `DestinationNewer` and `SourceOnly`
with `DestinationOnly`. -/
theorem c9_compare_swap_symmetry (h256 hb3 : List Nat → String)
    (sourcePath destPath : PathM) (a b : Option FileMeta) (m : ComparisonMethod) :
    (FileComparator.compare h256 hb3 sourcePath destPath a b m = .ok .Identical
      ↔ FileComparator.compare h256 hb3 destPath sourcePath b a m = .ok .Identical)
    ∧ (FileComparator.compare h256 hb3 sourcePath destPath a b m = .ok .SourceNewer
      ↔ FileComparator.compare h256 hb3 destPath sourcePath b a m = .ok .DestinationNewer)
    ∧ (FileComparator.compare h256 hb3 sourcePath destPath a b m = .ok .DestinationNewer
      ↔ FileComparator.compare h256 hb3 destPath sourcePath b a m = .ok .SourceNewer)
    ∧ (FileComparator.compare h256 hb3 sourcePath destPath a b m = .ok .SourceOnly
      ↔ FileComparator.compare h256 hb3 destPath sourcePath b a m = .ok .DestinationOnly)
    ∧ (FileComparator.compare h256 hb3 sourcePath destPath a b m = .ok .DestinationOnly
      ↔ FileComparator.compare h256 hb3 destPath sourcePath b a m = .ok .SourceOnly) := by
  rcases a with _ | s <;> rcases b with _ | d
  · simp [FileComparator.compare]
  · simp [FileComparator.compare]
  · simp [FileComparator.compare]
  · by_cases hdir : (s.is_dir || d.is_dir) = true
    · have hdir2 : (d.is_dir || s.is_dir) = true := by
        simpa [Bool.or_comm] using hdir
      simp [FileComparator.compare, hdir, hdir2]
    · have hdir2 : ¬ (d.is_dir || s.is_dir) = true := by
        simpa [Bool.or_comm] using hdir
      have h := compareExisting_symm h256 hb3 s d m
      simp only [FileComparator.compare, if_neg hdir, if_neg hdir2,
        Except.ok.injEq]
      exact ⟨h.1, h.2.1, h.2.2.1,
        by
          constructor
          · intro hx; exact absurd hx h.2.2.2.1
          · intro hx
            exact absurd hx (compareExisting_symm h256 hb3 d s m).2.2.2.2,
        by
          constructor
          · intro hx; exact absurd hx h.2.2.2.2
          · intro hx
            exact absurd hx (compareExisting_symm h256 hb3 d s m).2.2.2.1⟩

/-! ## C2 -/

/-- C2: the claim says `f1.and(f2)` accepts exactly the pairs both filters
accept.  It fails: `and` concatenates the include pattern lists, and a
`GlobSet` matches when any member matches, so with `f1` including only
`**/*.txt` and `f2` including only `**/*.rs`, the path `a.rs` is rejected by
`f1` but accepted by the combination. -/
theorem c2_and_union_counterexample :
    shouldIncludeFile extGlobMatch
        (FileFilter.and { FilterOptions.default with include_patterns := ["**/*.txt"] }
          { FilterOptions.default with include_patterns := ["**/*.rs"] })
        ["a.rs"] 0 = true
    ∧ shouldIncludeFile extGlobMatch
        { FilterOptions.default with include_patterns := ["**/*.txt"] } ["a.rs"] 0
      = false
    ∧ shouldIncludeFile extGlobMatch
        { FilterOptions.default with include_patterns := ["**/*.rs"] } ["a.rs"] 0
      = true := by
  refine ⟨?_, ?_, ?_⟩ <;> decide

/-- Boolean normal form of `should_include`. -/
theorem shouldInclude_eq (M : GlobMatcher) (f : FileFilter) (p : PathM) :
    shouldInclude M f p =
      (!(!f.include_hidden && isHiddenPath p)
        && (f.include_patterns.isEmpty
              || globsetIsMatch M f.case_sensitive f.include_patterns p)
        && (f.exclude_patterns.isEmpty
              || !globsetIsMatch M f.case_sensitive f.exclude_patterns p)) := by
  cases hih : f.include_hidden <;>
    simp only [shouldInclude, hih] <;>
    split_ifs <;> (try simp_all) <;> tauto

/-- The size bounds of a combined filter accept exactly the sizes both
component filters accept. -/
theorem shouldIncludeSize_and (f1 f2 : FileFilter) (s : Nat) :
    shouldIncludeSize (f1.and f2) s
      = (shouldIncludeSize f1 s && shouldIncludeSize f2 s) := by
  rcases f1 with ⟨i1, e1, c1, h1, mx1, mn1⟩
  rcases f2 with ⟨i2, e2, c2, h2, mx2, mn2⟩
  simp only [FileFilter.and, shouldIncludeSize]
  rcases mx1 with _ | a <;> rcases mx2 with _ | b <;>
    rcases mn1 with _ | c <;> rcases mn2 with _ | d <;>
    simp <;>
    (try simp [Bool.and_assoc, Bool.and_comm, Bool.and_left_comm])

/-- C2 (amended): when the two filters carry the same case-sensitivity flag
and at most one of them has include patterns, the combined filter accepts a
(path, size) pair iff both filters accept it.  (In general the combination
is union-flattened over includes — see the counterexample — and ORs the
case-sensitivity flags.) -/
theorem c2_and_conjunction_amended (M : GlobMatcher) (f1 f2 : FileFilter)
    (p : PathM) (s : Nat) (hcs : f1.case_sensitive = f2.case_sensitive)
    (hinc : f1.include_patterns = [] ∨ f2.include_patterns = []) :
    shouldIncludeFile M (f1.and f2) p s
      = (shouldIncludeFile M f1 p s && shouldIncludeFile M f2 p s) := by
  have hsize := shouldIncludeSize_and f1 f2 s
  have hpath : shouldInclude M (f1.and f2) p
      = (shouldInclude M f1 p && shouldInclude M f2 p) := by
    rw [shouldInclude_eq, shouldInclude_eq, shouldInclude_eq]
    rcases f1 with ⟨i1, e1, c1, h1, mx1, mn1⟩
    rcases f2 with ⟨i2, e2, c2, h2, mx2, mn2⟩
    simp only at hcs
    subst hcs
    simp only [FileFilter.and, globsetIsMatch, List.any_append, Bool.or_self]
    rcases hinc with h | h
    · simp only at h
      subst h
      rcases e1 with _ | ⟨x1, xs1⟩ <;> rcases e2 with _ | ⟨x2, xs2⟩ <;>
        rcases i2 with _ | ⟨y, ys⟩ <;>
        cases h1 <;> cases h2 <;> cases hp : isHiddenPath p <;>
        simp [Bool.and_assoc, Bool.and_comm, Bool.and_left_comm]
    · simp only at h
      subst h
      rcases e1 with _ | ⟨x1, xs1⟩ <;> rcases e2 with _ | ⟨x2, xs2⟩ <;>
        rcases i1 with _ | ⟨y, ys⟩ <;>
        cases h1 <;> cases h2 <;> cases hp : isHiddenPath p <;>
        simp [Bool.and_assoc, Bool.and_comm, Bool.and_left_comm]
  simp [shouldIncludeFile, hpath, hsize, Bool.and_assoc, Bool.and_comm,
    Bool.and_left_comm]

/-- C2 amended, witnessed on an exclude-plus-max-size filter combined with
an include-plus-min-size filter. -/
theorem c2_and_conjunction_amended_witness :
    shouldIncludeFile extGlobMatch
        (FileFilter.and
          { FilterOptions.default with
            exclude_patterns := ["**/*.tmp"], max_file_size := some 100 }
          { FilterOptions.default with
            include_patterns := ["**/*.txt"], min_file_size := some 10 })
        ["a.txt"] 50
      = (shouldIncludeFile extGlobMatch
          { FilterOptions.default with
            exclude_patterns := ["**/*.tmp"], max_file_size := some 100 }
          ["a.txt"] 50
        && shouldIncludeFile extGlobMatch
          { FilterOptions.default with
            include_patterns := ["**/*.txt"], min_file_size := some 10 }
          ["a.txt"] 50) := by
  exact c2_and_conjunction_amended extGlobMatch
    { FilterOptions.default with
      exclude_patterns := ["**/*.tmp"], max_file_size := some 100 }
    { FilterOptions.default with
      include_patterns := ["**/*.txt"], min_file_size := some 10 }
    ["a.txt"] 50 rfl (Or.inl rfl)

/-! ## C7 -/

/-- Membership in a stable insertion. -/
theorem mem_stableInsert (le : α → α → Bool) (a x : α) (l : List α) :
    x ∈ stableInsert le a l ↔ x = a ∨ x ∈ l := by
  induction l with
  | nil => simp [stableInsert]
  | cons b bs ih =>
      simp only [stableInsert]
      split_ifs with h
      · simp only [List.mem_cons, ih]
        try tauto
      · simp only [List.mem_cons]
        try tauto

/-- Stable insertion preserves sortedness for a transitive total boolean
preorder. -/
theorem pairwise_stableInsert (le : α → α → Bool)
    (htrans : ∀ {x y z : α}, le x y = true → le y z = true → le x z = true)
    (htot : ∀ x y : α, le x y = true ∨ le y x = true) (a : α) (l : List α)
    (h : l.Pairwise (fun x y => le x y = true)) :
    (stableInsert le a l).Pairwise (fun x y => le x y = true) := by
  induction l with
  | nil => simp [stableInsert]
  | cons b bs ih =>
      rcases List.pairwise_cons.mp h with ⟨hb, hbs⟩
      simp only [stableInsert]
      split_ifs with hba
      · refine List.pairwise_cons.mpr ⟨?_, ih hbs⟩
        intro x hx
        rcases (mem_stableInsert le a x bs).mp hx with rfl | hx'
        · exact hba
        · exact hb x hx'
      · refine List.pairwise_cons.mpr ⟨?_, h⟩
        have hab : le a b = true := by
          rcases htot a b with h' | h'
          · exact h'
          · exact absurd h' (by simpa using hba)
        intro x hx
        rcases List.mem_cons.mp hx with rfl | hx'
        · exact hab
        · exact htrans hab (hb x hx')

/-- The sorting loop preserves sortedness of the accumulator. -/
theorem pairwise_stableSortRun (le : α → α → Bool)
    (htrans : ∀ {x y z : α}, le x y = true → le y z = true → le x z = true)
    (htot : ∀ x y : α, le x y = true ∨ le y x = true) :
    ∀ (xs acc : List α), acc.Pairwise (fun x y => le x y = true) →
      (stableSortRun le acc xs).Pairwise (fun x y => le x y = true) := by
  intro xs
  induction xs with
  | nil => intro acc h; simpa [stableSortRun] using h
  | cons x xs ih =>
      intro acc h
      exact ih _ (pairwise_stableInsert le htrans htot x acc h)

/-- The stable sort output is sorted. -/
theorem stableSort_pairwise (le : α → α → Bool)
    (htrans : ∀ {x y z : α}, le x y = true → le y z = true → le x z = true)
    (htot : ∀ x y : α, le x y = true ∨ le y x = true) (l : List α) :
    (stableSort le l).Pairwise (fun x y => le x y = true) :=
  pairwise_stableSortRun le htrans htot l [] (List.Pairwise.nil)

/-- Insertion is a permutation. -/
theorem stableInsert_perm (le : α → α → Bool) (a : α) (l : List α) :
    List.Perm (stableInsert le a l) (a :: l) := by
  induction l with
  | nil => simp [stableInsert]
  | cons b bs ih =>
      simp only [stableInsert]
      split_ifs
      · exact (ih.cons b).trans (List.Perm.swap a b bs)
      · exact List.Perm.refl _

/-- The sorting loop is a permutation of accumulator plus input. -/
theorem stableSortRun_perm (le : α → α → Bool) :
    ∀ (xs acc : List α), List.Perm (stableSortRun le acc xs) (acc ++ xs) := by
  intro xs
  induction xs with
  | nil => intro acc; simp [stableSortRun]
  | cons x xs ih =>
      intro acc
      have h2 : List.Perm (stableInsert le x acc ++ xs) ((x :: acc) ++ xs) :=
        (stableInsert_perm le x acc).append_right xs
      exact ((ih (stableInsert le x acc)).trans h2).trans List.perm_middle.symm

/-- The stable sort permutes its input. -/
theorem stableSort_perm (le : α → α → Bool) (l : List α) :
    List.Perm (stableSort le l) l := by
  simpa [stableSort] using stableSortRun_perm le l []

/-- `actionLe` is transitive. -/
theorem actionLe_trans {x y z : SyncAction} (h1 : actionLe x y = true)
    (h2 : actionLe y z = true) : actionLe x z = true := by
  simp only [actionLe, actionCmp, decide_eq_true_eq] at *
  cases hx : isDirCreate x <;> cases hy : isDirCreate y <;>
    cases hz : isDirCreate z <;> simp_all [Nat.compare_eq_gt] <;> omega

/-- `actionLe` is total. -/
theorem actionLe_total (x y : SyncAction) :
    actionLe x y = true ∨ actionLe y x = true := by
  simp only [actionLe, actionCmp, decide_eq_true_eq]
  cases hx : isDirCreate x <;> cases hy : isDirCreate y <;>
    simp [Nat.compare_eq_gt] <;> omega

/-- C7 (amended): `sort_actions` permutes the plan's actions so that every
`CreateDirectory` action precedes every non-`CreateDirectory` action and,
within the non-directory group, file sizes are non-increasing (larger files
first).  Relative order among `CreateDirectory` actions is the plan order
(`sort_by` is stable), so a parent directory is *not* guaranteed to precede
actions for paths underneath it — see the counterexample. -/
theorem c7_sort_actions_shape_amended (plan : SyncPlan) :
    ((sortActions plan).actions).Pairwise (fun a b =>
        (isDirCreate b = true → isDirCreate a = true)
        ∧ (isDirCreate a = false → isDirCreate b = false →
            getActionFileSize b ≤ getActionFileSize a))
    ∧ List.Perm (sortActions plan).actions plan.actions := by
  constructor
  · have hp := stableSort_pairwise actionLe
      (fun h1 h2 => actionLe_trans h1 h2) actionLe_total plan.actions
    refine hp.imp ?_
    intro a b hle
    simp only [actionLe, actionCmp, decide_eq_true_eq] at hle
    cases hA : isDirCreate a <;> cases hB : isDirCreate b <;>
      simp_all [Nat.compare_eq_gt]
  · exact stableSort_perm actionLe plan.actions

/-- C7 (counterexample to the claim as stated): feeding the differ the
directory entries in the order `a/b`, `a` (entry lists may come in any
order) yields, after `sort_actions`, the plan
`[CreateDirectory a/b, CreateDirectory a]`: the CreateDirectory for `a`
does *not* precede the action for `a/b`, whose relative path lies strictly
under `a`. -/
theorem c7_sort_actions_counterexample :
    (generatePlan (fun _ _ _ => .ok .Identical)
        [mkDirEntry ["a", "b"], mkDirEntry ["a"]] [] .SizeAndTimestamp).map
      (fun plan => (sortActions plan).actions)
      = .ok [.CreateDirectory ["a", "b"], .CreateDirectory ["a"]]
    ∧ (["a"].isPrefixOf ["a", "b"]) = true
    ∧ (["a"] : PathM) ≠ ["a", "b"] := by
  exact ⟨rfl, by decide, by decide⟩

/-! ## C4 -/

/-- Dry-run `copy_file` leaves the filesystem untouched. -/
theorem copyFile_dryRun (options : SyncOptions) (h : options.dry_run = true)
    (source destination : PathM) (fs : Fs) :
    (copyFile options source destination fs).1 = fs := by
  simp [copyFile, h]

/-- Dry-run `delete_file` leaves the filesystem untouched. -/
theorem deleteFile_dryRun (options : SyncOptions) (h : options.dry_run = true)
    (path : PathM) (fs : Fs) : (deleteFile options path fs).1 = fs := by
  simp [deleteFile, h]

/-- Dry-run `create_directory` leaves the filesystem untouched. -/
theorem createDirectory_dryRun (options : SyncOptions) (h : options.dry_run = true)
    (path : PathM) (fs : Fs) : (createDirectory options path fs).1 = fs := by
  simp [createDirectory, h]

/-- In a dry run a missing destination root is not created. -/
theorem ensureDestRoot_dryRun (options : SyncOptions) (h : options.dry_run = true)
    (dest_path : PathM) (fs : Fs) : (ensureDestRoot options dest_path fs).1 = fs := by
  simp only [ensureDestRoot, h]
  split_ifs <;> rfl

/-- Dry-run execution of any non-Conflict action leaves the filesystem
untouched. -/
theorem executeBasicAction_dryRun (options : SyncOptions)
    (h : options.dry_run = true) (rp : Bool) (source_root dest_root : PathM)
    (fs : Fs) (a : SyncAction) :
    (executeBasicAction options rp source_root dest_root fs a).1 = fs := by
  cases a <;>
    simp only [executeBasicAction, copyFile, deleteFile, createDirectory, h,
      if_true] <;> split_ifs <;> rfl

/-- Dry-run execution of any action (Conflict resolution included) leaves
the filesystem untouched. -/
theorem executeAction_dryRun (options : SyncOptions) (h : options.dry_run = true)
    (resolver : ConflictResolver) (nowTs : String) (rp : Bool)
    (source_root dest_root : PathM) (fs : Fs) (a : SyncAction) :
    (executeAction options resolver nowTs rp source_root dest_root fs a).1 = fs := by
  cases a with
  | Conflict s d ct si di =>
      simp only [executeAction]
      cases hr : resolveConflict resolver nowTs s d ct si di with
      | error e => rfl
      | ok resolution =>
          dsimp only
          cases hra : resolutionToAction resolution s d si with
          | error e => rfl
          | ok oa =>
              cases oa with
              | none => rfl
              | some act =>
                  exact executeBasicAction_dryRun options h rp source_root
                    dest_root fs act
  | Copy s d n => exact executeBasicAction_dryRun options h rp source_root dest_root fs _
  | Update s d n => exact executeBasicAction_dryRun options h rp source_root dest_root fs _
  | Delete p => exact executeBasicAction_dryRun options h rp source_root dest_root fs _
  | CreateDirectory p => exact executeBasicAction_dryRun options h rp source_root dest_root fs _
  | Skip p r => exact executeBasicAction_dryRun options h rp source_root dest_root fs _

/-- Dry-run execution of a whole action list leaves the filesystem
untouched. -/
theorem executeSyncPlanAux_dryRun (options : SyncOptions)
    (h : options.dry_run = true) (resolver : ConflictResolver) (nowTs : String)
    (rp : Bool) (source_root dest_root : PathM) :
    ∀ (actions : List SyncAction) (fs : Fs) (metrics : SyncMetrics),
      (executeSyncPlanAux options resolver nowTs rp source_root dest_root
        actions fs metrics).1 = fs := by
  intro actions
  induction actions with
  | nil => intro fs metrics; rfl
  | cons a rest ih =>
      intro fs metrics
      have ha := executeAction_dryRun options h resolver nowTs rp source_root
        dest_root fs a
      rcases hx : executeAction options resolver nowTs rp source_root dest_root
        fs a with ⟨fs1, r⟩
      rw [hx] at ha
      simp only [executeSyncPlanAux, hx]
      cases r with
      | ok op => exact (ih fs1 _).trans ha
      | error e =>
          dsimp only
          split_ifs with hc
          · exact (ih fs1 _).trans ha
          · exact ha

/-- C4: with `dry_run=true` no filesystem mutation occurs: `copy_file`,
`delete_file` and `create_directory` return the filesystem unchanged, a
missing destination root is not created by the setup step of
`sync_with_progress`, and executing an entire sync plan leaves the
filesystem state exactly as it was. -/
theorem c4_dry_run_no_mutation (options : SyncOptions)
    (h : options.dry_run = true) (resolver : ConflictResolver) (nowTs : String)
    (rp : Bool) (source destination path dest_path source_root dest_root : PathM)
    (plan : SyncPlan) (fs : Fs) (metrics : SyncMetrics) :
    (copyFile options source destination fs).1 = fs
    ∧ (deleteFile options path fs).1 = fs
    ∧ (createDirectory options path fs).1 = fs
    ∧ (ensureDestRoot options dest_path fs).1 = fs
    ∧ (executeSyncPlan options resolver nowTs rp plan source_root dest_root
        fs metrics).1 = fs :=
  ⟨copyFile_dryRun options h source destination fs,
   deleteFile_dryRun options h path fs,
   createDirectory_dryRun options h path fs,
   ensureDestRoot_dryRun options h dest_path fs,
   executeSyncPlanAux_dryRun options h resolver nowTs rp source_root dest_root
     plan.actions fs metrics⟩

/-- C4 witnessed on a concrete dry-run engine, a missing destination root
and a plan containing a copy, a delete, a directory creation, a conflict and
a skip, over a one-entry filesystem. -/
theorem c4_dry_run_no_mutation_witness :
    (copyFile { SyncOptions.default with dry_run := true } ["s", "f.txt"]
        ["d", "f.txt"] { entries := [(["s"], .dir)] }).1
      = { entries := [(["s"], .dir)] }
    ∧ (deleteFile { SyncOptions.default with dry_run := true } ["d", "g.txt"]
        { entries := [(["s"], .dir)] }).1 = { entries := [(["s"], .dir)] }
    ∧ (createDirectory { SyncOptions.default with dry_run := true } ["d", "sub"]
        { entries := [(["s"], .dir)] }).1 = { entries := [(["s"], .dir)] }
    ∧ (ensureDestRoot { SyncOptions.default with dry_run := true } ["d"]
        { entries := [(["s"], .dir)] }).1 = { entries := [(["s"], .dir)] }
    ∧ (executeSyncPlan { SyncOptions.default with dry_run := true }
        { default_strategy := .PreferSource, type_strategies := [],
          backup_directory := none } "20260101_000000" true
        { actions := [.Copy ["f.txt"] ["f.txt"] 5, .Delete ["old.txt"],
            .CreateDirectory ["sub"],
            .Conflict ["f.txt"] ["f.txt"] .BothModified fi0 fi0,
            .Skip ["same.txt"] "Files are identical"],
          summary := PlanSummary.default }
        ["s"] ["d"] { entries := [(["s"], .dir)] } SyncMetrics.new).1
      = { entries := [(["s"], .dir)] } :=
  c4_dry_run_no_mutation { SyncOptions.default with dry_run := true } rfl
    { default_strategy := .PreferSource, type_strategies := [],
      backup_directory := none } "20260101_000000" true ["s", "f.txt"]
    ["d", "f.txt"] ["d", "g.txt"] ["d"] ["s"] ["d"]
    { actions := [.Copy ["f.txt"] ["f.txt"] 5, .Delete ["old.txt"],
        .CreateDirectory ["sub"],
        .Conflict ["f.txt"] ["f.txt"] .BothModified fi0 fi0,
        .Skip ["same.txt"] "Files are identical"],
      summary := PlanSummary.default }
    { entries := [(["s"], .dir)] } SyncMetrics.new
